import Mathlib

/-!
Verification of the inventory-management backend.

This development shallowly embeds the parts of the backend that the
specification talks about: the pydantic validation models
(`backend/models.py`), the dynamic query construction
(`backend/utils.py` and the list endpoint of `backend/main.py`), the
update and delete handlers (`backend/main.py`), the transaction helper
(`backend/database.py`), and the content of the two PDF report variants
(`backend/pdf_generator.py`).

Modelling conventions:
* Python `float` prices are modelled as rationals (`ℚ`); Python
  `round(x, 2)` and the `.2f` format specifier are modelled as exact
  round-half-to-even at two decimal digits.
* Python `str.strip()` is modelled by `pyStrip` (drop leading and
  trailing whitespace from the character list).
* Fallible handlers return `Except`; the visible database state is
  threaded explicitly, so each handler returns `result × state`.
-/

namespace Inventory

/-- A value passed out-of-band for one `%s` placeholder of a
parameterized SQL statement. -/
inductive Param where
  | str (s : String)
  | rat (q : ℚ)
  | int (n : Int)
deriving DecidableEq, Repr

/-- A product row as the API handlers see it (`models.Product`, minus the
`created_at` and `updated_at` timestamps, which no claim depends on). -/
structure Product where
  id : Int
  name : String
  category : String
  quantity : Int
  price : ℚ
  description : Option String
deriving DecidableEq, Repr

/-- Python `str.strip()`: drop leading and trailing whitespace. -/
def stripList (l : List Char) : List Char :=
  ((l.dropWhile Char.isWhitespace).reverse.dropWhile Char.isWhitespace).reverse

/-- Python `str.strip()` on strings. -/
def pyStrip (s : String) : String :=
  String.mk (stripList s.data)

/-- Round a rational to the nearest integer, ties to even (the rounding
mode of Python `round` and of the `.2f` float format). -/
def roundHalfEven (q : ℚ) : Int :=
  if q - ⌊q⌋ < 1/2 then ⌊q⌋
  else if 1/2 < q - ⌊q⌋ then ⌊q⌋ + 1
  else if ⌊q⌋ % 2 = 0 then ⌊q⌋ else ⌊q⌋ + 1

/-- Python `round(x, 2)`: round to two decimal digits, ties to even. -/
def round2 (q : ℚ) : ℚ :=
  (roundHalfEven (q * 100) : ℚ) / 100

/-! ### Validation (`backend/models.py`)

pydantic checks the declared `Field` constraints of a field first and
then runs that field's custom `@validator`; the value returned by the
validator is stored without being re-checked.  Each helper below embeds
one field of `ProductBase` / `ProductUpdate`; `none` is a validation
error. -/

/-- Field `ProductBase.name`: `Field(min_length=1, max_length=255)`, then
`validate_name` (reject when blank after stripping, store stripped). -/
def validateNameField (v : String) : Option String :=
  if 1 ≤ v.length ∧ v.length ≤ 255 then
    if pyStrip v = "" then none else some (pyStrip v)
  else none

/-- Field `ProductBase.category`: `Field(min_length=1, max_length=100)`, then
`validate_category`. -/
def validateCategoryField (v : String) : Option String :=
  if 1 ≤ v.length ∧ v.length ≤ 100 then
    if pyStrip v = "" then none else some (pyStrip v)
  else none

/-- Field `ProductBase.quantity`: `Field(ge=0)`, then `validate_quantity`
(which re-checks `v < 0`). -/
def validateQuantityField (v : Int) : Option Int :=
  if 0 ≤ v then (if v < 0 then none else some v) else none

/-- Field `ProductBase.price`: `Field(gt=0)`, then `validate_price` (which
re-checks `v <= 0` and returns `round(v, 2)`). -/
def validatePriceField (v : ℚ) : Option ℚ :=
  if 0 < v then (if v ≤ 0 then none else some (round2 v)) else none

/-- Field `ProductBase.description`: optional, `Field(max_length=1000)`. -/
def validateDescriptionField (v : Option String) : Option (Option String) :=
  match v with
  | none => some none
  | some d => if d.length ≤ 1000 then some (some d) else none

/-- The five validated scalar fields of `ProductBase` / `ProductCreate`. -/
structure ProductBase where
  name : String
  category : String
  quantity : Int
  price : ℚ
  description : Option String
deriving DecidableEq, Repr

/-- Validation of a `ProductCreate` request body: every field must pass;
the stored value of each field is what its validator returned. -/
def productBaseValidate (name category : String) (quantity : Int) (price : ℚ)
    (description : Option String) : Option ProductBase :=
  match validateNameField name, validateCategoryField category,
        validateQuantityField quantity, validatePriceField price,
        validateDescriptionField description with
  | some n, some c, some q, some p, some d => some ⟨n, c, q, p, d⟩
  | _, _, _, _, _ => none

/-- The five optional fields of a `ProductUpdate` request body (also the
shape of its validated result). -/
structure ProductUpdateData where
  name : Option String := none
  category : Option String := none
  quantity : Option Int := none
  price : Option ℚ := none
  description : Option String := none
deriving DecidableEq, Repr

/-- Field `ProductUpdate.name`: absent passes through; a present value must
meet the length bounds and not be blank, and is stored stripped
(`return v.strip() if v else v`). -/
def updateNameField (v : Option String) : Option (Option String) :=
  match v with
  | none => some none
  | some s =>
    if 1 ≤ s.length ∧ s.length ≤ 255 then
      if pyStrip s = "" then none
      else some (some (if s = "" then s else pyStrip s))
    else none

/-- Field `ProductUpdate.category`: as `updateNameField` with bound 100. -/
def updateCategoryField (v : Option String) : Option (Option String) :=
  match v with
  | none => some none
  | some s =>
    if 1 ≤ s.length ∧ s.length ≤ 100 then
      if pyStrip s = "" then none
      else some (some (if s = "" then s else pyStrip s))
    else none

/-- Field `ProductUpdate.quantity`: `Field(ge=0)` plus the validator re-check. -/
def updateQuantityField (v : Option Int) : Option (Option Int) :=
  match v with
  | none => some none
  | some q => if 0 ≤ q then (if q < 0 then none else some (some q)) else none

/-- Field `ProductUpdate.price`: `Field(gt=0)` plus the validator, which
returns `round(v, 2)` for a present value. -/
def updatePriceField (v : Option ℚ) : Option (Option ℚ) :=
  match v with
  | none => some none
  | some p => if 0 < p then (if p ≤ 0 then none else some (some (round2 p))) else none

/-- Field `ProductUpdate.description`: optional, `Field(max_length=1000)`. -/
def updateDescriptionField (v : Option String) : Option (Option String) :=
  match v with
  | none => some none
  | some d => if d.length ≤ 1000 then some (some d) else none

/-- Validation of a `ProductUpdate` request body. -/
def productUpdateValidate (u : ProductUpdateData) : Option ProductUpdateData :=
  match updateNameField u.name, updateCategoryField u.category,
        updateQuantityField u.quantity, updatePriceField u.price,
        updateDescriptionField u.description with
  | some n, some c, some q, some p, some d => some ⟨n, c, q, p, d⟩
  | _, _, _, _, _ => none

/-! ### Query builder (`utils.build_search_query`)

The source appends `(condition, value)` pairs to two running lists in a
fixed order; each append below is one `if` branch of the source, and
`build_search_query` concatenates them in the source order.  Python
truthiness is embedded: `filters.get('category')` is truthy only for a
present, non-empty string; `is not None` checks only presence;
`filters.get('low_stock')` is truthy only for a present `True`. -/

/-- The optional filter set (`models.ProductFilter` shape / the filters
dict passed to `build_search_query`). -/
structure Filters where
  category : Option String := none
  min_price : Option ℚ := none
  max_price : Option ℚ := none
  min_quantity : Option Int := none
  max_quantity : Option Int := none
  search : Option String := none
  low_stock : Option Bool := none
deriving DecidableEq, Repr

/-- Category filter: `if filters.get('category')`. -/
def catCond (f : Filters) : List String × List Param :=
  match f.category with
  | some s => if s = "" then ([], []) else (["category = %s"], [.str s])
  | none => ([], [])

/-- Minimum price filter: `if filters.get('min_price') is not None`. -/
def minPriceCond (f : Filters) : List String × List Param :=
  match f.min_price with
  | some q => (["price >= %s"], [.rat q])
  | none => ([], [])

/-- Maximum price filter. -/
def maxPriceCond (f : Filters) : List String × List Param :=
  match f.max_price with
  | some q => (["price <= %s"], [.rat q])
  | none => ([], [])

/-- Minimum quantity filter. -/
def minQtyCond (f : Filters) : List String × List Param :=
  match f.min_quantity with
  | some n => (["quantity >= %s"], [.int n])
  | none => ([], [])

/-- Maximum quantity filter. -/
def maxQtyCond (f : Filters) : List String × List Param :=
  match f.max_quantity with
  | some n => (["quantity <= %s"], [.int n])
  | none => ([], [])

/-- Search filter: one condition over name and description, two
placeholders carrying the same `%`-wrapped value. -/
def searchCond (f : Filters) : List String × List Param :=
  match f.search with
  | some s =>
    if s = "" then ([], [])
    else (["(name LIKE %s OR description LIKE %s)"],
          [.str ("%" ++ s ++ "%"), .str ("%" ++ s ++ "%")])
  | none => ([], [])

/-- Low-stock filter: a literal condition, no placeholder. -/
def lowStockCond (f : Filters) : List String :=
  match f.low_stock with
  | some true => ["quantity < 10"]
  | _ => []

/-- Python `' AND '.join(conditions)`. -/
def joinAnd : List String → String
  | [] => ""
  | c :: rest =>
    match rest with
    | [] => c
    | _ => c ++ " AND " ++ joinAnd rest

/-- The `conditions` list of `build_search_query` after all appends, in
the source order. -/
def searchConditionList (f : Filters) : List String :=
  (catCond f).1 ++ (minPriceCond f).1 ++ (maxPriceCond f).1 ++
    (minQtyCond f).1 ++ (maxQtyCond f).1 ++ (searchCond f).1 ++ lowStockCond f

/-- The `params` list of `build_search_query` after all appends, in the
source order. -/
def searchParamList (f : Filters) : List Param :=
  (catCond f).2 ++ (minPriceCond f).2 ++ (maxPriceCond f).2 ++
    (minQtyCond f).2 ++ (maxQtyCond f).2 ++ (searchCond f).2

/-- Embeds `utils.build_search_query`: conditions and parameters accumulated in
the source order, a `WHERE` clause appended only when some condition
exists. -/
def build_search_query (base_query : String) (f : Filters) : String × List Param :=
  if (searchConditionList f).isEmpty then (base_query, searchParamList f)
  else (base_query ++ " WHERE " ++ joinAnd (searchConditionList f), searchParamList f)

/-- Number of `%s` placeholders in a character sequence (`%` and `s` are
distinct characters, so occurrences cannot overlap). -/
def countPS : List Char → Nat
  | [] => 0
  | a :: rest => (if a = '%' ∧ rest.head? = some 's' then 1 else 0) + countPS rest

/-- Number of `%s` placeholders in a statement string. -/
def countPlaceholders (s : String) : Nat :=
  countPS s.data

/-- The ordered argument list as the specification describes it:
category, then price bounds (min then max), then quantity bounds (min
then max), then search (two placeholders carrying the same wildcarded
value), low-stock contributing no placeholder.  Written from the words
of the specification, to be compared with `build_search_query`. -/
def specArgumentOrder (f : Filters) : List Param :=
  (match f.category with
   | some s => if s = "" then [] else [Param.str s]
   | none => []) ++
  (match f.min_price with | some q => [Param.rat q] | none => []) ++
  (match f.max_price with | some q => [Param.rat q] | none => []) ++
  (match f.min_quantity with | some n => [Param.int n] | none => []) ++
  (match f.max_quantity with | some n => [Param.int n] | none => []) ++
  (match f.search with
   | some s =>
     if s = "" then []
     else [Param.str ("%" ++ s ++ "%"), Param.str ("%" ++ s ++ "%")]
   | none => [])

/-! ### The list endpoint (`main.get_products`)

The handler builds its statement inline (not through
`build_search_query`): base `SELECT ... WHERE 1=1`, conditional clauses
for category, search and low stock, then `ORDER BY created_at DESC
LIMIT %s OFFSET %s` with `(limit, skip)` appended to the parameters. -/

/-- Query construction of `main.get_products`. -/
def get_products_query (skip limit : Int) (category search : Option String)
    (low_stock : Option Bool) : String × List Param :=
  let q₀ := "SELECT * FROM products WHERE 1=1"
  let s₁ : String × List Param :=
    match category with
    | some c => if c = "" then (q₀, []) else (q₀ ++ " AND category = %s", [.str c])
    | none => (q₀, [])
  let s₂ : String × List Param :=
    match search with
    | some s =>
      if s = "" then s₁
      else (s₁.1 ++ " AND (name LIKE %s OR description LIKE %s)",
            s₁.2 ++ [.str ("%" ++ s ++ "%"), .str ("%" ++ s ++ "%")])
    | none => s₁
  let s₃ : String × List Param :=
    match low_stock with
    | some true => (s₂.1 ++ " AND quantity < 10", s₂.2)
    | _ => s₂
  (s₃.1 ++ " ORDER BY created_at DESC LIMIT %s OFFSET %s",
   s₃.2 ++ [.int limit, .int skip])

/-! ### Single-item handlers (`backend/main.py`)

The store is the `products` table, a list of rows; handlers return the
HTTP outcome together with the table state after the call. -/

/-- HTTP-level failures the handlers raise. -/
inductive HErr where
  | notFound (id : Int)
  | badRequest (msg : String)
deriving DecidableEq, Repr

/-- Embeds `main.get_product`: `SELECT * FROM products WHERE id = %s`; 404 when
no row matches, else the first matching row. -/
def get_product (store : List Product) (pid : Int) : Except HErr Product :=
  match (store.filter (fun p => decide (p.id = pid))).head? with
  | none => .error (.notFound pid)
  | some p => .ok p

/-- The `SET` clauses accumulated by `main.update_product`, one per
present field, in the source order (the parameter list runs parallel to
these clauses). -/
def updateFieldClauses (u : ProductUpdateData) : List String :=
  (match u.name with | some _ => ["name = %s"] | none => []) ++
  (match u.category with | some _ => ["category = %s"] | none => []) ++
  (match u.quantity with | some _ => ["quantity = %s"] | none => []) ++
  (match u.price with | some _ => ["price = %s"] | none => []) ++
  (match u.description with | some _ => ["description = %s"] | none => [])

/-- Effect of the dynamic `UPDATE ... SET` statement on one row: every
present field is overwritten, absent fields are untouched. -/
def applyUpdate (u : ProductUpdateData) (p : Product) : Product :=
  { p with
    name := u.name.getD p.name
    category := u.category.getD p.category
    quantity := u.quantity.getD p.quantity
    price := u.price.getD p.price
    description := match u.description with | some d => some d | none => p.description }

/-- Embeds `main.update_product`: existence check first, then the in-handler
re-validation of quantity and price, then the zero-field rejection, and
only then the `UPDATE` statement followed by a re-fetch. -/
def update_product (store : List Product) (pid : Int) (u : ProductUpdateData) :
    Except HErr Product × List Product :=
  match get_product store pid with
  | .error e => (.error e, store)
  | .ok _ =>
    let qbad := match u.quantity with | some q => decide (q < 0) | none => false
    let pbad := match u.price with | some p => decide (p ≤ 0) | none => false
    if qbad then (.error (.badRequest "Quantity cannot be negative"), store)
    else if pbad then (.error (.badRequest "Price must be greater than 0"), store)
    else if (updateFieldClauses u).isEmpty then
      (.error (.badRequest "No fields to update"), store)
    else
      let newStore := store.map (fun p => if p.id = pid then applyUpdate u p else p)
      match get_product newStore pid with
      | .error e => (.error e, newStore)
      | .ok p => (.ok p, newStore)

/-- Embeds `main.delete_product`: existence check (re-using `get_product`),
then `DELETE FROM products WHERE id = %s`; 404 when the delete touched
no row; on success the confirmation message carries the name read by the
existence check. -/
def delete_product (store : List Product) (pid : Int) :
    Except HErr String × List Product :=
  match get_product store pid with
  | .error e => (.error e, store)
  | .ok existing =>
    let newStore := store.filter (fun p => decide (¬ p.id = pid))
    let affected := store.countP (fun p => decide (p.id = pid))
    if affected = 0 then (.error (.notFound pid), newStore)
    else (.ok existing.name, newStore)

/-! ### Transaction helper (`DatabaseManager.execute_transaction`)

A statement is modelled as a transformer of the store that can fail; the
cursor executes the statements in order on the connection-local state.
`commit` publishes the final state; on any failure the helper rolls back
(the visible store stays what it was) and re-raises. -/

/-- The inner `for` loop: run each statement on the connection-local
state, stopping at the first failure. -/
def runStatements {DB : Type} (stmts : List (DB → Except String DB)) (cur : DB) :
    Except String DB :=
  match stmts with
  | [] => .ok cur
  | s :: rest =>
    match s cur with
    | .ok next => runStatements rest next
    | .error e => .error e

/-- Embeds `DatabaseManager.execute_transaction`: returns `True` and the
committed state on success; on any statement failure the transaction is
rolled back (visible state unchanged) before the error is re-raised. -/
def execute_transaction {DB : Type} (stmts : List (DB → Except String DB)) (db : DB) :
    Except String Bool × DB :=
  match runStatements stmts db with
  | .ok final => (.ok true, final)
  | .error e => (.error e, db)

/-! ### Report generator (`backend/pdf_generator.py`)

The embedding captures the document content the generator assembles:
titles, the generated-on subtitle, summary tables, data rows and footer.
Both source methods call `datetime.now()` inside their bodies to build
the subtitle; that wall-clock read is made explicit here as the `now`
argument (the `strftime('%B %d, %Y at %I:%M %p')` rendering of the
instant the generator happened to run). -/

/-- Two-digit zero-padded rendering of `n % 100`-sized values. -/
def pad2 (n : Nat) : String :=
  if n < 10 then "0" ++ toString n else toString n

/-- Insert a thousands separator every three digits, counting from the
right (digits arrive least-significant first). -/
def commaGroupRev : List Char → List Char
  | a :: b :: c :: d :: rest => a :: b :: c :: ',' :: commaGroupRev (d :: rest)
  | l => l

/-- The Python float format `f'{x:.2f}'`: two decimals, ties to even. -/
def fmt2 (q : ℚ) : String :=
  let cents : Int := roundHalfEven (q * 100)
  let sign := if cents < 0 then "-" else ""
  let a := cents.natAbs
  sign ++ toString (a / 100) ++ "." ++ pad2 (a % 100)

/-- The Python float format `f'{x:,.2f}'`: two decimals, ties to even,
thousands separators in the integer part. -/
def fmtMoney (q : ℚ) : String :=
  let cents : Int := roundHalfEven (q * 100)
  let sign := if cents < 0 then "-" else ""
  let a := cents.natAbs
  let intPart := String.mk (commaGroupRev (toString (a / 100)).data.reverse).reverse
  sign ++ intPart ++ "." ++ pad2 (a % 100)

/-- One row of the full-listing table: id, name truncated to 30
characters with an ellipsis, category, quantity, unit price, line value,
and the stock status label. -/
def fullRow (p : Product) : List String :=
  [ toString p.id,
    if 30 < p.name.length then (p.name.take 30) ++ "..." else p.name,
    p.category,
    toString p.quantity,
    "$" ++ fmt2 p.price,
    "$" ++ fmt2 ((p.quantity : ℚ) * p.price),
    if p.quantity < 10 then "⚠️ Low Stock" else "✓ In Stock" ]

/-- Content of the full-listing document. -/
structure FullDoc where
  title : String
  subtitle : String
  summaryHeader : List String
  summaryValues : List String
  tableHeader : List String
  rows : List (List String)
  footer : String
deriving DecidableEq, Repr

/-- Embeds `PDFGenerator.generate_full_product_list`; `now` is the formatted
`datetime.now()` read the source performs while building the subtitle. -/
def generate_full_product_list (products : List Product) (now : String) : FullDoc :=
  let total_quantity := (products.map (fun p => p.quantity)).sum
  let total_value := (products.map (fun p => (p.quantity : ℚ) * p.price)).sum
  let low_stock_count := products.countP (fun p => decide (p.quantity < 10))
  { title := "Complete Product Inventory"
    subtitle := "Generated on " ++ now ++ "<br/>Total Products: " ++
      toString products.length
    summaryHeader := ["Total Products", "Total Quantity", "Total Value", "Low Stock Items"]
    summaryValues := [toString products.length, toString total_quantity,
      "$" ++ fmtMoney total_value, toString low_stock_count]
    tableHeader := ["ID", "Name", "Category", "Quantity", "Price", "Total Value", "Status"]
    rows := products.map fullRow
    footer := "<i>Report generated by Inventory Management System</i>" }

/-- Priority label of a low-stock row. -/
def rowPriority (p : Product) : String :=
  if p.quantity < 5 then "🔴 Critical" else "🟡 Low"

/-- Suggested reorder quantity of a low-stock row
(`max(20 - product.quantity, 10)`, reorder up to 20 units). -/
def suggestedReorder (p : Product) : Int :=
  max (20 - p.quantity) 10

/-- One row of the low-stock table: priority, id, name truncated to 25
characters, category, quantity, unit price, line value, suggested
reorder. -/
def lowRow (p : Product) : List String :=
  [ rowPriority p,
    toString p.id,
    if 25 < p.name.length then (p.name.take 25) ++ "..." else p.name,
    p.category,
    toString p.quantity,
    "$" ++ fmt2 p.price,
    "$" ++ fmt2 ((p.quantity : ℚ) * p.price),
    "+" ++ toString (suggestedReorder p) ]

/-- Body of the low-stock document: either the adequately-stocked notice
or the summary plus data table plus the static recommendations block. -/
inductive LowBody where
  | allStocked (notice : String)
  | table (summaryHeader summaryValues : List String)
      (tableHeader : List String) (rows : List (List String))
      (recommendations : String)
deriving DecidableEq, Repr

/-- Content of the low-stock document. -/
structure LowDoc where
  title : String
  subtitle : String
  body : LowBody
  footer : String
deriving DecidableEq, Repr

/-- The static recommendations block of the low-stock report. -/
def recommendationsText : String :=
  "• <b>Critical items (&lt; 5 units):</b> Immediate reorder required<br/>" ++
  "• <b>Low stock items (&lt; 10 units):</b> Schedule reorder within 1-2 weeks<br/>" ++
  "• <b>Suggested reorder quantities:</b> Shown in \"Reorder\" column<br/>" ++
  "• <b>Review pricing:</b> Consider bulk purchase discounts for frequently low-stock items"

/-- Embeds `PDFGenerator.generate_low_stock_report`: filters to quantity < 10
internally, sorts ascending by quantity, and emits the notice when the
filtered set is empty; `now` is the formatted `datetime.now()` read the
source performs while building the subtitle. -/
def generate_low_stock_report (products : List Product) (now : String) : LowDoc :=
  let low_stock_products := products.filter (fun p => decide (p.quantity < 10))
  { title := "⚠️ Low Stock Alert Report"
    subtitle := "Generated on " ++ now ++ "<br/>Low Stock Items: " ++
      toString low_stock_products.length
    body :=
      if low_stock_products.isEmpty then
        .allStocked ("<para align=center><b>✓ All products are adequately stocked!" ++
          "</b><br/><br/>No items with quantity below 10.</para>")
      else
        .table ["Low Stock Items", "Critical Items (< 5)", "Total Value at Risk"]
          [toString low_stock_products.length,
           toString (low_stock_products.countP (fun p => decide (p.quantity < 5))),
           "$" ++ fmtMoney ((low_stock_products.map
             (fun p => (p.quantity : ℚ) * p.price)).sum)]
          ["Priority", "ID", "Name", "Category", "Qty", "Price", "Total Value", "Reorder"]
          ((low_stock_products.mergeSort
            (fun a b => decide (a.quantity ≤ b.quantity))).map lowRow)
          recommendationsText
    footer := "<i>Report generated by Inventory Management System</i>" }

/-- The rows of the low-stock document (empty for the notice variant). -/
def lowDocRows (d : LowDoc) : List (List String) :=
  match d.body with
  | .allStocked _ => []
  | .table _ _ _ rows _ => rows

/-- Erase the wall-clock-dependent subtitle of a full-listing document. -/
def stripTimeFull (d : FullDoc) : FullDoc :=
  { d with subtitle := "" }

/-- Erase the wall-clock-dependent subtitle of a low-stock document. -/
def stripTimeLow (d : LowDoc) : LowDoc :=
  { d with subtitle := "" }

/-- Clause text the list endpoint appends for its filters, in source
order (from the specification: category, search, low-stock). -/
def listFilterClause (category search : Option String) (low_stock : Option Bool) : String :=
  (match category with
   | some c => if c = "" then "" else " AND category = %s"
   | none => "") ++
  (match search with
   | some s => if s = "" then "" else " AND (name LIKE %s OR description LIKE %s)"
   | none => "") ++
  (match low_stock with | some true => " AND quantity < 10" | _ => "")

/-- Parameters the list endpoint accumulates for its filters, in source
order. -/
def listFilterParams (category search : Option String) : List Param :=
  (match category with
   | some c => if c = "" then [] else [Param.str c]
   | none => []) ++
  (match search with
   | some s =>
     if s = "" then []
     else [Param.str ("%" ++ s ++ "%"), Param.str ("%" ++ s ++ "%")]
   | none => [])

/-! ### Theorems -/

theorem string_append_empty (s : String) : s ++ "" = s := by
  obtain ⟨l⟩ := s
  show String.mk (l ++ []) = String.mk l
  rw [List.append_nil]

theorem string_append_assoc (a b c : String) : a ++ b ++ c = a ++ (b ++ c) := by
  obtain ⟨x⟩ := a; obtain ⟨y⟩ := b; obtain ⟨z⟩ := c
  show String.mk (x ++ y ++ z) = String.mk (x ++ (y ++ z))
  rw [List.append_assoc]

/-- Claim C1 (amended): each report variant is a pure function of the
product list and of the timestamp the generator reads from the wall
clock while running; apart from the generated-on subtitle, which embeds
that timestamp, the produced content is a function of the product list
alone. -/
theorem c1_reports_pure_up_to_clock (ps : List Product) (t₁ t₂ : String) :
    stripTimeFull (generate_full_product_list ps t₁) =
      stripTimeFull (generate_full_product_list ps t₂) ∧
    stripTimeLow (generate_low_stock_report ps t₁) =
      stripTimeLow (generate_low_stock_report ps t₂) :=
  ⟨rfl, rfl⟩

/-- Claim C1, counterexample: the source reads `datetime.now()` inside
both generators (`pdf_generator.py` lines 78 and 213), so two runs on
the identical (empty) product list at different wall-clock instants
produce different documents — the generator is not a function of the
product list and an externally supplied timestamp. -/
theorem c1_wall_clock_counterexample :
    generate_full_product_list [] "January 01, 2025 at 10:00 AM" ≠
      generate_full_product_list [] "January 02, 2025 at 09:00 AM" ∧
    generate_low_stock_report [] "January 01, 2025 at 10:00 AM" ≠
      generate_low_stock_report [] "January 02, 2025 at 09:00 AM" := by
  constructor <;> decide

theorem runStatements_foldlM {DB : Type} (stmts : List (DB → Except String DB))
    (cur : DB) :
    runStatements stmts cur = List.foldlM (fun acc stmt => stmt acc) cur stmts := by
  induction stmts generalizing cur with
  | nil => rfl
  | cons s rest ih =>
    show (match s cur with
      | .ok next => runStatements rest next
      | .error e => .error e) = _
    rw [List.foldlM_cons]
    cases s cur with
    | ok next => simpa using ih next
    | error e => rfl

/-- Claim C2: the transaction helper applies all statements or none.  On
success the committed state is the sequential application of every
statement; on any mid-sequence failure the error is surfaced and the
visible state is exactly the pre-transaction state — no partially
applied sequence is ever committed. -/
theorem c2_execute_transaction_atomic {DB : Type}
    (stmts : List (DB → Except String DB)) (db : DB) :
    (∃ db', execute_transaction stmts db = (.ok true, db') ∧
        List.foldlM (fun acc stmt => stmt acc) db stmts = .ok db') ∨
    (∃ e, execute_transaction stmts db = (.error e, db) ∧
        List.foldlM (fun acc stmt => stmt acc) db stmts = .error e) := by
  rcases h : runStatements stmts db with e | final
  · exact .inr ⟨e, by simp [execute_transaction, h], by rw [← runStatements_foldlM, h]⟩
  · exact .inl ⟨final, by simp [execute_transaction, h], by rw [← runStatements_foldlM, h]⟩

/-- Claim C9: the list endpoint appends the pagination placeholders
last, after any `WHERE` clause, and its argument list always ends with
`(limit, skip)` in that order — in particular `skip = 10, limit = 5`
ends in `(5, 10)`. -/
theorem c9_pagination_appended_last (skip limit : Int)
    (category search : Option String) (low_stock : Option Bool) :
    (get_products_query skip limit category search low_stock).1 =
      "SELECT * FROM products WHERE 1=1" ++ listFilterClause category search low_stock ++
        " ORDER BY created_at DESC LIMIT %s OFFSET %s" ∧
    (get_products_query skip limit category search low_stock).2 =
      listFilterParams category search ++ [Param.int limit, Param.int skip] := by
  unfold get_products_query listFilterClause listFilterParams
  rcases category with _ | c <;> rcases search with _ | s <;>
    rcases low_stock with _ | (_ | _) <;>
    simp only [] <;> (try split_ifs) <;>
    simp [string_append_assoc, string_append_empty]

/-- Claim C10: the low-stock filter is applied only when truthy — a
request with `low_stock` explicitly `False` builds exactly the same
statement and argument list as one with `low_stock` absent, both in the
list endpoint and in `build_search_query`. -/
theorem c10_low_stock_false_is_noop :
    (∀ (skip limit : Int) (category search : Option String),
      get_products_query skip limit category search (some false) =
        get_products_query skip limit category search none) ∧
    (∀ (base : String) (f : Filters),
      build_search_query base { f with low_stock := some false } =
        build_search_query base { f with low_stock := none }) :=
  ⟨fun _ _ _ _ => rfl, fun _ _ => rfl⟩

/-- Claim C4: an update request whose body contains zero recognized
fields is rejected as a client error, and the store is left exactly as
it was — no storage mutation is executed. -/
theorem c4_update_zero_fields_rejected (store : List Product) (pid : Int)
    (p : Product) (hex : get_product store pid = .ok p) (u : ProductUpdateData)
    (hn : u.name = none) (hc : u.category = none) (hq : u.quantity = none)
    (hp : u.price = none) (hd : u.description = none) :
    update_product store pid u = (.error (.badRequest "No fields to update"), store) := by
  obtain ⟨n, c, q, pr, d⟩ := u
  simp only at hn hc hq hp hd
  subst hn hc hq hp hd
  simp [update_product, hex, updateFieldClauses]

/-- Claim C4, witness at a one-row store and the empty update body. -/
theorem c4_update_zero_fields_rejected_witness :
    update_product [⟨1, "Widget", "Tools", 3, 5, none⟩] 1
        { name := none, category := none, quantity := none,
          price := none, description := none } =
      (.error (.badRequest "No fields to update"),
        [⟨1, "Widget", "Tools", 3, 5, none⟩]) :=
  c4_update_zero_fields_rejected [⟨1, "Widget", "Tools", 3, 5, none⟩] 1
    ⟨1, "Widget", "Tools", 3, 5, none⟩ rfl _ rfl rfl rfl rfl rfl

/-- Claim C8: delete is idempotent in the failure sense — after a
successful delete of an id, a second delete of the same id yields a
not-found error and leaves the store untouched. -/
theorem c8_delete_idempotent (store : List Product) (pid : Int) (name : String)
    (store' : List Product) (h : delete_product store pid = (.ok name, store')) :
    delete_product store' pid = (.error (.notFound pid), store') := by
  rcases hg : get_product store pid with e | existing
  · rw [delete_product, hg] at h
    exact absurd h (by simp)
  · rw [delete_product, hg] at h
    by_cases haff : store.countP (fun p => decide (p.id = pid)) = 0
    · simp [haff] at h
    · simp only [haff, if_false, Prod.mk.injEq] at h
      obtain ⟨-, hstore'⟩ := h
      have hfil : store'.filter (fun p => decide (p.id = pid)) = [] := by
        rw [List.filter_eq_nil_iff]
        intro a ha
        rw [← hstore'] at ha
        have := List.of_mem_filter ha
        simp only [decide_eq_true_eq] at this ⊢
        exact this
      rw [delete_product, get_product, hfil]
      rfl

/-- Claim C8, witness: deleting id 1 from a one-row store succeeds and
empties it; a second delete of id 1 is a not-found error. -/
theorem c8_delete_idempotent_witness :
    delete_product ([] : List Product) 1 = (.error (.notFound 1), []) :=
  c8_delete_idempotent [⟨1, "Widget", "Tools", 3, 5, none⟩] 1 "Widget" [] rfl

theorem dropWhile_head_not {α : Type} (p : α → Bool) (l : List α) (a : α)
    (h : (l.dropWhile p).head? = some a) : p a = false := by
  induction l with
  | nil => simp [List.dropWhile] at h
  | cons x t ih =>
    rw [List.dropWhile_cons] at h
    split_ifs at h with hx
    · exact ih h
    · simp only [List.head?_cons, Option.some.injEq] at h
      subst h
      simpa using hx

theorem dropWhile_idem {α : Type} (p : α → Bool) (l : List α) :
    (l.dropWhile p).dropWhile p = l.dropWhile p := by
  cases h : l.dropWhile p with
  | nil => rfl
  | cons a t =>
    have ha : p a = false := dropWhile_head_not p l a (by rw [h]; rfl)
    rw [List.dropWhile_cons, ha]
    simp

theorem getLast?_dropWhile_of_ne_nil {α : Type} (p : α → Bool) (l : List α)
    (hne : l.dropWhile p ≠ []) : (l.dropWhile p).getLast? = l.getLast? := by
  obtain ⟨t, ht⟩ := List.dropWhile_suffix (l := l) (p := p)
  conv_rhs => rw [← ht]
  exact (List.getLast?_append_of_ne_nil t hne).symm

theorem stripList_head_not (l : List Char) (a : Char)
    (h : (stripList l).head? = some a) : a.isWhitespace = false := by
  unfold stripList at h
  rw [List.head?_reverse] at h
  have hne : ((l.dropWhile Char.isWhitespace).reverse.dropWhile Char.isWhitespace) ≠ [] := by
    intro hnil
    rw [hnil] at h
    simp at h
  rw [getLast?_dropWhile_of_ne_nil _ _ hne, List.getLast?_reverse] at h
  exact dropWhile_head_not Char.isWhitespace l a h

theorem stripList_idem (l : List Char) : stripList (stripList l) = stripList l := by
  have h1 : (stripList l).dropWhile Char.isWhitespace = stripList l := by
    cases hx : stripList l with
    | nil => rfl
    | cons a t =>
      have ha := stripList_head_not l a (by rw [hx]; rfl)
      rw [List.dropWhile_cons, ha]
      simp
  have h2 : (stripList l).reverse.dropWhile Char.isWhitespace = (stripList l).reverse := by
    have hrev : (stripList l).reverse =
        (l.dropWhile Char.isWhitespace).reverse.dropWhile Char.isWhitespace := by
      unfold stripList
      rw [List.reverse_reverse]
    rw [hrev]
    exact dropWhile_idem _ _
  have hdef : stripList (stripList l) =
      (((stripList l).dropWhile Char.isWhitespace).reverse.dropWhile
        Char.isWhitespace).reverse := rfl
  rw [hdef, h1, h2, List.reverse_reverse]

theorem pyStrip_idem (s : String) : pyStrip (pyStrip s) = pyStrip s := by
  show String.mk (stripList (stripList s.data)) = String.mk (stripList s.data)
  rw [stripList_idem]

theorem roundHalfEven_nonneg (q : ℚ) (hq : 0 ≤ q) : 0 ≤ roundHalfEven q := by
  unfold roundHalfEven
  have hf : (0 : Int) ≤ ⌊q⌋ := Int.floor_nonneg.mpr hq
  split_ifs <;> omega

theorem round2_nonneg (q : ℚ) (hq : 0 ≤ q) : 0 ≤ round2 q := by
  unfold round2
  have h := roundHalfEven_nonneg (q * 100) (by positivity)
  have : (0 : ℚ) ≤ (roundHalfEven (q * 100) : ℚ) := by exact_mod_cast h
  positivity

theorem validateNameField_some {v n : String} (h : validateNameField v = some n) :
    n = pyStrip v ∧ n ≠ "" := by
  unfold validateNameField at h
  split_ifs at h with h1 h2
  have he := Option.some.inj h
  subst he
  exact ⟨rfl, h2⟩

theorem validateCategoryField_some {v n : String} (h : validateCategoryField v = some n) :
    n = pyStrip v ∧ n ≠ "" := by
  unfold validateCategoryField at h
  split_ifs at h with h1 h2
  have he := Option.some.inj h
  subst he
  exact ⟨rfl, h2⟩

theorem validateQuantityField_some {v n : Int} (h : validateQuantityField v = some n) :
    n = v ∧ 0 ≤ n := by
  unfold validateQuantityField at h
  split_ifs at h with h1 h2
  have he := Option.some.inj h
  subst he
  exact ⟨rfl, h1⟩

theorem validatePriceField_some {v n : ℚ} (h : validatePriceField v = some n) :
    0 < v ∧ n = round2 v := by
  unfold validatePriceField at h
  split_ifs at h with h1 h2
  have he := Option.some.inj h
  subst he
  exact ⟨h1, rfl⟩

theorem productBaseValidate_fields {n c : String} {q : Int} {p : ℚ}
    {d : Option String} {pb : ProductBase}
    (h : productBaseValidate n c q p d = some pb) :
    validateNameField n = some pb.name ∧ validateCategoryField c = some pb.category ∧
    validateQuantityField q = some pb.quantity ∧ validatePriceField p = some pb.price ∧
    validateDescriptionField d = some pb.description := by
  unfold productBaseValidate at h
  split at h
  next n' c' q' p' d' hn hc hq hp hd =>
    cases h
    exact ⟨hn, hc, hq, hp, hd⟩
  next => exact absurd h (by simp)

theorem productUpdateValidate_fields {u v : ProductUpdateData}
    (h : productUpdateValidate u = some v) :
    updateNameField u.name = some v.name ∧
    updateCategoryField u.category = some v.category ∧
    updateQuantityField u.quantity = some v.quantity ∧
    updatePriceField u.price = some v.price ∧
    updateDescriptionField u.description = some v.description := by
  unfold productUpdateValidate at h
  split at h
  next n' c' q' p' d' hn hc hq hp hd =>
    cases h
    exact ⟨hn, hc, hq, hp, hd⟩
  next => exact absurd h (by simp)

theorem string_ne_empty_of_length {s : String} (h : 1 ≤ s.length) : s ≠ "" := by
  intro he
  rw [he] at h
  exact absurd h (by decide)

theorem updateNameField_some_eq {s : String} {w : Option String}
    (h : updateNameField (some s) = some w) :
    w = some (pyStrip s) ∧ pyStrip s ≠ "" := by
  simp only [updateNameField] at h
  split_ifs at h with h1 h2 h3
  · exact absurd h3 (string_ne_empty_of_length h1.1)
  · exact ⟨(Option.some.inj h).symm, h2⟩

theorem updateCategoryField_some_eq {s : String} {w : Option String}
    (h : updateCategoryField (some s) = some w) :
    w = some (pyStrip s) ∧ pyStrip s ≠ "" := by
  simp only [updateCategoryField] at h
  split_ifs at h with h1 h2 h3
  · exact absurd h3 (string_ne_empty_of_length h1.1)
  · exact ⟨(Option.some.inj h).symm, h2⟩

theorem updateQuantityField_some_eq {q : Int} {w : Option Int}
    (h : updateQuantityField (some q) = some w) : w = some q ∧ 0 ≤ q := by
  simp only [updateQuantityField] at h
  split_ifs at h with h1 h2
  exact ⟨(Option.some.inj h).symm, h1⟩

theorem updatePriceField_some_eq {p : ℚ} {w : Option ℚ}
    (h : updatePriceField (some p) = some w) :
    0 < p ∧ w = some (round2 p) := by
  simp only [updatePriceField] at h
  split_ifs at h with h1 h2
  exact ⟨h1, (Option.some.inj h).symm⟩

theorem roundHalfEven_eq_of_lt {x : ℚ} {n : Int} (h1 : (n : ℚ) ≤ x)
    (h2 : x < (n : ℚ) + 1/2) : roundHalfEven x = n := by
  have hfl : ⌊x⌋ = n := Int.floor_eq_iff.mpr ⟨h1, by linarith⟩
  unfold roundHalfEven
  rw [hfl, if_pos (by linarith)]

theorem roundHalfEven_eq_of_gt {x : ℚ} {n : Int} (h1 : (n : ℚ) + 1/2 < x)
    (h2 : x < (n : ℚ) + 1) : roundHalfEven x = n + 1 := by
  have hfl : ⌊x⌋ = n := Int.floor_eq_iff.mpr ⟨by linarith, h2⟩
  unfold roundHalfEven
  rw [hfl, if_neg (by linarith), if_pos (by linarith)]

theorem round2_milli : round2 (1/1000) = 0 := by
  unfold round2
  rw [show (1/1000 : ℚ) * 100 = 1/10 by norm_num]
  rw [roundHalfEven_eq_of_lt (n := 0) (by norm_num) (by norm_num)]
  norm_num

theorem round2_five : round2 5 = 5 := by
  unfold round2
  rw [show (5 : ℚ) * 100 = 500 by norm_num]
  rw [roundHalfEven_eq_of_lt (n := 500) (by norm_num) (by norm_num)]
  norm_num

theorem round2_19999 : round2 (19999/1000) = 20 := by
  unfold round2
  rw [show (19999/1000 : ℚ) * 100 = 19999/10 by norm_num]
  rw [roundHalfEven_eq_of_gt (n := 1999) (by norm_num) (by norm_num)]
  norm_num

/-- Claim C5 (amended): a validated create or update carries quantity
≥ 0 and names that are non-empty and already stripped; the supplied
price must be strictly positive and the stored price is that price
rounded to two decimals, hence ≥ 0 — but the stored price itself can be
0 (see the counterexample), so `price > 0` holds for the supplied value,
not for the stored one. -/
theorem c5_validated_invariants :
    (∀ (n c : String) (q : Int) (p : ℚ) (d : Option String) (pb : ProductBase),
        productBaseValidate n c q p d = some pb →
        0 < p ∧ pb.price = round2 p ∧ 0 ≤ pb.price ∧ 0 ≤ pb.quantity ∧
        pb.name ≠ "" ∧ pyStrip pb.name = pb.name ∧
        pb.category ≠ "" ∧ pyStrip pb.category = pb.category) ∧
    (∀ (u v : ProductUpdateData), productUpdateValidate u = some v →
        (∀ p, u.price = some p → 0 < p ∧ v.price = some (round2 p)) ∧
        (∀ p, v.price = some p → 0 ≤ p) ∧
        (∀ q, v.quantity = some q → 0 ≤ q) ∧
        (∀ s, v.name = some s → s ≠ "" ∧ pyStrip s = s) ∧
        (∀ s, v.category = some s → s ≠ "" ∧ pyStrip s = s)) := by
  constructor
  · intro n c q p d pb h
    obtain ⟨hn, hc, hq, hp, hd⟩ := productBaseValidate_fields h
    obtain ⟨hn1, hn2⟩ := validateNameField_some hn
    obtain ⟨hc1, hc2⟩ := validateCategoryField_some hc
    obtain ⟨hq1, hq2⟩ := validateQuantityField_some hq
    obtain ⟨hp1, hp2⟩ := validatePriceField_some hp
    refine ⟨hp1, hp2, ?_, hq2, hn2, ?_, hc2, ?_⟩
    · rw [hp2]
      exact round2_nonneg p (le_of_lt hp1)
    · rw [hn1]
      exact pyStrip_idem n
    · rw [hc1]
      exact pyStrip_idem c
  · intro u v h
    obtain ⟨hn, hc, hq, hp, hd⟩ := productUpdateValidate_fields h
    refine ⟨?_, ?_, ?_, ?_, ?_⟩
    · intro p hup
      rw [hup] at hp
      exact updatePriceField_some_eq hp
    · intro p hvp
      cases hu : u.price with
      | none =>
        rw [hu] at hp
        simp only [updatePriceField] at hp
        rw [← Option.some.inj hp] at hvp
        simp at hvp
      | some p0 =>
        rw [hu] at hp
        obtain ⟨h1, h2⟩ := updatePriceField_some_eq hp
        have hpe : p = round2 p0 := by
          rw [h2] at hvp
          exact (Option.some.inj hvp).symm
        rw [hpe]
        exact round2_nonneg p0 (le_of_lt h1)
    · intro q hvq
      cases hu : u.quantity with
      | none =>
        rw [hu] at hq
        simp only [updateQuantityField] at hq
        rw [← Option.some.inj hq] at hvq
        simp at hvq
      | some q0 =>
        rw [hu] at hq
        obtain ⟨h1, h2⟩ := updateQuantityField_some_eq hq
        have hqe : q = q0 := by
          rw [h1] at hvq
          exact (Option.some.inj hvq).symm
        rw [hqe]
        exact h2
    · intro s hvs
      cases hu : u.name with
      | none =>
        rw [hu] at hn
        simp only [updateNameField] at hn
        rw [← Option.some.inj hn] at hvs
        simp at hvs
      | some s0 =>
        rw [hu] at hn
        obtain ⟨h1, h2⟩ := updateNameField_some_eq hn
        have hse : s = pyStrip s0 := by
          rw [h1] at hvs
          exact (Option.some.inj hvs).symm
        subst hse
        exact ⟨h2, pyStrip_idem s0⟩
    · intro s hvs
      cases hu : u.category with
      | none =>
        rw [hu] at hc
        simp only [updateCategoryField] at hc
        rw [← Option.some.inj hc] at hvs
        simp at hvs
      | some s0 =>
        rw [hu] at hc
        obtain ⟨h1, h2⟩ := updateCategoryField_some_eq hc
        have hse : s = pyStrip s0 := by
          rw [h1] at hvs
          exact (Option.some.inj hvs).symm
        subst hse
        exact ⟨h2, pyStrip_idem s0⟩

/-- Claim C5, counterexample: a creation request with price `0.001`
passes validation — the `gt=0` check sees the supplied value — but the
stored price is `round(0.001, 2) = 0.0`, so the claimed invariant
`price > 0` fails for the product value the validated model produces. -/
theorem c5_price_zero_counterexample :
    productBaseValidate "A" "B" 0 (1/1000) none =
      some { name := "A", category := "B", quantity := 0, price := 0,
             description := none } ∧
    ¬ (0 : ℚ) < ProductBase.price
      { name := "A", category := "B", quantity := 0, price := 0,
        description := none } := by
  constructor
  · have hname : validateNameField "A" = some "A" := by decide
    have hcat : validateCategoryField "B" = some "B" := by decide
    have hqty : validateQuantityField 0 = some 0 := by decide
    have hprice : validatePriceField (1/1000) = some 0 := by
      unfold validatePriceField
      rw [if_pos (by norm_num), if_neg (by norm_num), round2_milli]
    unfold productBaseValidate
    rw [hname, hcat, hqty, hprice]
    rfl
  · exact lt_irrefl 0

/-- Claim C5, witness for the amended invariants at a concrete passing
request (name `" A "` is stored stripped and non-empty, price 5 stays
positive). -/
theorem c5_validated_invariants_witness :
    productBaseValidate " A " "B" 2 5 none =
      some { name := "A", category := "B", quantity := 2, price := 5,
             description := none } ∧
    (0 : ℚ) < 5 ∧
    (0 : ℚ) ≤ ProductBase.price
      { name := "A", category := "B", quantity := 2, price := 5,
        description := none } ∧
    ProductBase.name
      { name := "A", category := "B", quantity := 2, price := 5,
        description := none } ≠ "" := by
  have heq : productBaseValidate " A " "B" 2 5 none =
      some { name := "A", category := "B", quantity := 2, price := 5,
             description := none } := by
    have hname : validateNameField " A " = some "A" := by decide
    have hcat : validateCategoryField "B" = some "B" := by decide
    have hqty : validateQuantityField 2 = some 2 := by decide
    have hprice : validatePriceField 5 = some 5 := by
      unfold validatePriceField
      rw [if_pos (by norm_num), if_neg (by norm_num), round2_five]
    unfold productBaseValidate
    rw [hname, hcat, hqty, hprice]
    rfl
  have h := c5_validated_invariants.1 " A " "B" 2 5 none _ heq
  exact ⟨heq, h.1, h.2.2.1, h.2.2.2.2.1⟩

/-- Claim C6: the accepted price of a validated create or update is the
supplied price rounded to two decimal places. -/
theorem c6_price_rounded_to_2_decimals :
    (∀ (n c : String) (q : Int) (p : ℚ) (d : Option String) (pb : ProductBase),
        productBaseValidate n c q p d = some pb → pb.price = round2 p) ∧
    (∀ (u v : ProductUpdateData), productUpdateValidate u = some v →
        ∀ p, u.price = some p → v.price = some (round2 p)) := by
  constructor
  · intro n c q p d pb h
    exact (validatePriceField_some (productBaseValidate_fields h).2.2.2.1).2
  · intro u v h p hup
    have hp := (productUpdateValidate_fields h).2.2.2.1
    rw [hup] at hp
    exact (updatePriceField_some_eq hp).2

/-- Claim C6, witness: creating with price `19.999` stores price `20.0`
(two-decimal rounding). -/
theorem c6_price_rounded_witness :
    productBaseValidate "A" "B" 1 (19999/1000) none =
      some { name := "A", category := "B", quantity := 1, price := 20,
             description := none } ∧
    ProductBase.price
      { name := "A", category := "B", quantity := 1, price := 20,
        description := none } = round2 (19999/1000) ∧
    round2 (19999/1000) = 20 := by
  have heq : productBaseValidate "A" "B" 1 (19999/1000) none =
      some { name := "A", category := "B", quantity := 1, price := 20,
             description := none } := by
    have hname : validateNameField "A" = some "A" := by decide
    have hcat : validateCategoryField "B" = some "B" := by decide
    have hqty : validateQuantityField 1 = some 1 := by decide
    have hprice : validatePriceField (19999/1000) = some 20 := by
      unfold validatePriceField
      rw [if_pos (by norm_num), if_neg (by norm_num), round2_19999]
    unfold productBaseValidate
    rw [hname, hcat, hqty, hprice]
    rfl
  exact ⟨heq, c6_price_rounded_to_2_decimals.1 "A" "B" 1 (19999/1000) none _ heq,
    round2_19999⟩

/-- Claim C7: every input product with quantity < 10 contributes a row
to the low-stock report, every report row comes from such a product, and
a row carries suggested reorder `max(20 - quantity, 10)` in its last
cell and the priority label in its first cell — the Critical label
exactly when quantity < 5, the Low label otherwise. -/
theorem c7_low_stock_report_rows (ps : List Product) (now : String) :
    (∀ p, p ∈ ps → p.quantity < 10 →
        lowRow p ∈ lowDocRows (generate_low_stock_report ps now)) ∧
    (∀ row, row ∈ lowDocRows (generate_low_stock_report ps now) →
        ∃ p, p ∈ ps ∧ p.quantity < 10 ∧ row = lowRow p) ∧
    (∀ p : Product,
        suggestedReorder p = max (20 - p.quantity) 10 ∧
        (p.quantity < 5 → rowPriority p = "🔴 Critical") ∧
        (¬ p.quantity < 5 → rowPriority p = "🟡 Low") ∧
        (lowRow p)[7]? = some ("+" ++ toString (suggestedReorder p)) ∧
        (lowRow p)[0]? = some (rowPriority p)) := by
  refine ⟨?_, ?_, ?_⟩
  · intro p hp h10
    have hmem : p ∈ ps.filter (fun q => decide (q.quantity < 10)) :=
      List.mem_filter.mpr ⟨hp, by simpa using h10⟩
    have hne : ¬ (ps.filter (fun q => decide (q.quantity < 10))).isEmpty := by
      rw [List.isEmpty_iff]
      intro hnil
      rw [hnil] at hmem
      simp at hmem
    have hbody : lowDocRows (generate_low_stock_report ps now) =
        ((ps.filter (fun q => decide (q.quantity < 10))).mergeSort
          (fun a b => decide (a.quantity ≤ b.quantity))).map lowRow := by
      simp only [generate_low_stock_report, lowDocRows]
      rw [if_neg hne]
    rw [hbody]
    exact List.mem_map_of_mem lowRow (((List.mergeSort_perm _ _).mem_iff).mpr hmem)
  · intro row hrow
    by_cases hne : (ps.filter (fun q => decide (q.quantity < 10))).isEmpty
    · have hnil : lowDocRows (generate_low_stock_report ps now) = [] := by
        simp only [generate_low_stock_report, lowDocRows]
        rw [if_pos hne]
      rw [hnil] at hrow
      simp at hrow
    · have hbody : lowDocRows (generate_low_stock_report ps now) =
          ((ps.filter (fun q => decide (q.quantity < 10))).mergeSort
            (fun a b => decide (a.quantity ≤ b.quantity))).map lowRow := by
        simp only [generate_low_stock_report, lowDocRows]
        rw [if_neg hne]
      rw [hbody] at hrow
      obtain ⟨p, hpmem, hpe⟩ := List.mem_map.mp hrow
      obtain ⟨hps, h10⟩ :=
        List.mem_filter.mp (((List.mergeSort_perm _ _).mem_iff).mp hpmem)
      exact ⟨p, hps, by simpa using h10, hpe.symm⟩
  · intro p
    refine ⟨rfl, ?_, ?_, rfl, rfl⟩
    · intro h5
      unfold rowPriority
      rw [if_pos h5]
    · intro h5
      unfold rowPriority
      rw [if_neg h5]

/-- Claim C7, witness: a product with quantity 3 and price 4 appears in
the report with suggested reorder 17 and the Critical priority label. -/
theorem c7_low_stock_report_rows_witness :
    lowRow ⟨1, "Widget", "Tools", 3, 4, none⟩ ∈
      lowDocRows (generate_low_stock_report [⟨1, "Widget", "Tools", 3, 4, none⟩] "T") ∧
    suggestedReorder ⟨1, "Widget", "Tools", 3, 4, none⟩ = 17 ∧
    rowPriority ⟨1, "Widget", "Tools", 3, 4, none⟩ = "🔴 Critical" := by
  have h := c7_low_stock_report_rows [⟨1, "Widget", "Tools", 3, 4, none⟩] "T"
  refine ⟨h.1 _ (by simp) (by decide), by decide, ?_⟩
  exact (h.2.2 ⟨1, "Widget", "Tools", 3, 4, none⟩).2.1 (by decide)

theorem string_data_append (a b : String) : (a ++ b).data = a.data ++ b.data := by
  obtain ⟨x⟩ := a
  obtain ⟨y⟩ := b
  rfl

theorem countPS_append (xs ys : List Char) (h : ys.head? ≠ some 's') :
    countPS (xs ++ ys) = countPS xs + countPS ys := by
  induction xs with
  | nil => simp [countPS]
  | cons a rest ih =>
    cases rest with
    | nil =>
      have hcond : ¬ (a = '%' ∧ ys.head? = some 's') := fun hc => h hc.2
      simp [countPS, hcond]
    | cons b t =>
      show (if a = '%' ∧ some b = some 's' then 1 else 0) + countPS ((b :: t) ++ ys) =
        ((if a = '%' ∧ some b = some 's' then 1 else 0) + countPS (b :: t)) + countPS ys
      rw [ih]
      omega

theorem joinAnd_head (d : String) (t : List String) (hd : d.data ≠ []) :
    (joinAnd (d :: t)).data.head? = d.data.head? := by
  cases t with
  | nil => rfl
  | cons e t' =>
    show ((d ++ " AND ") ++ joinAnd (e :: t')).data.head? = _
    rw [string_data_append, string_data_append]
    obtain ⟨c, rest, hc⟩ := List.exists_cons_of_ne_nil hd
    rw [hc]
    rfl

theorem countPS_joinAnd (cs : List String)
    (h : ∀ c ∈ cs, c.data ≠ [] ∧ c.data.head? ≠ some 's') :
    countPS (joinAnd cs).data = (cs.map (fun c => countPS c.data)).sum := by
  induction cs with
  | nil => rfl
  | cons c rest ih =>
    cases rest with
    | nil => simp [joinAnd]
    | cons d t =>
      have hd := h d (by simp)
      have hXhead : (joinAnd (d :: t)).data.head? ≠ some 's' := by
        rw [joinAnd_head d t hd.1]
        exact hd.2
      show countPS ((c ++ " AND ") ++ joinAnd (d :: t)).data = _
      rw [string_data_append, string_data_append,
        countPS_append _ _ hXhead,
        countPS_append _ _ (by decide : (" AND ".data).head? ≠ some 's'),
        ih (fun x hx => h x (List.mem_cons_of_mem c hx))]
      have hws : countPS " AND ".data = 0 := by decide
      simp [hws]

theorem countPS_category : countPS "category = %s".data = 1 := by decide

theorem countPS_minPrice : countPS "price >= %s".data = 1 := by decide

theorem countPS_maxPrice : countPS "price <= %s".data = 1 := by decide

theorem countPS_minQty : countPS "quantity >= %s".data = 1 := by decide

theorem countPS_maxQty : countPS "quantity <= %s".data = 1 := by decide

theorem countPS_search :
    countPS "(name LIKE %s OR description LIKE %s)".data = 2 := by decide

theorem countPS_lowStock : countPS "quantity < 10".data = 0 := by decide

theorem catCond_facts (f : Filters) :
    (∀ c ∈ (catCond f).1, c.data ≠ [] ∧ c.data.head? ≠ some 's') ∧
    ((catCond f).1.map (fun c => countPS c.data)).sum = (catCond f).2.length ∧
    ((catCond f).1 = [] → (catCond f).2 = []) := by
  rcases hc : f.category with _ | s
  · simp [catCond, hc]
  · simp only [catCond, hc]
    split_ifs
    · simp
    · refine ⟨?_, by
        simp only [List.map_cons, List.map_nil, List.sum_cons, List.sum_nil,
          List.length_cons, List.length_nil]
        decide, by simp⟩
      intro c hcm
      simp only [List.mem_singleton] at hcm
      subst hcm
      exact ⟨by decide, by decide⟩

theorem minPriceCond_facts (f : Filters) :
    (∀ c ∈ (minPriceCond f).1, c.data ≠ [] ∧ c.data.head? ≠ some 's') ∧
    ((minPriceCond f).1.map (fun c => countPS c.data)).sum = (minPriceCond f).2.length ∧
    ((minPriceCond f).1 = [] → (minPriceCond f).2 = []) := by
  rcases hc : f.min_price with _ | q
  · simp [minPriceCond, hc]
  · simp only [minPriceCond, hc]
    refine ⟨?_, by
        simp only [List.map_cons, List.map_nil, List.sum_cons, List.sum_nil,
          List.length_cons, List.length_nil]
        decide, by simp⟩
    intro c hcm
    simp only [List.mem_singleton] at hcm
    subst hcm
    exact ⟨by decide, by decide⟩

theorem maxPriceCond_facts (f : Filters) :
    (∀ c ∈ (maxPriceCond f).1, c.data ≠ [] ∧ c.data.head? ≠ some 's') ∧
    ((maxPriceCond f).1.map (fun c => countPS c.data)).sum = (maxPriceCond f).2.length ∧
    ((maxPriceCond f).1 = [] → (maxPriceCond f).2 = []) := by
  rcases hc : f.max_price with _ | q
  · simp [maxPriceCond, hc]
  · simp only [maxPriceCond, hc]
    refine ⟨?_, by
        simp only [List.map_cons, List.map_nil, List.sum_cons, List.sum_nil,
          List.length_cons, List.length_nil]
        decide, by simp⟩
    intro c hcm
    simp only [List.mem_singleton] at hcm
    subst hcm
    exact ⟨by decide, by decide⟩

theorem minQtyCond_facts (f : Filters) :
    (∀ c ∈ (minQtyCond f).1, c.data ≠ [] ∧ c.data.head? ≠ some 's') ∧
    ((minQtyCond f).1.map (fun c => countPS c.data)).sum = (minQtyCond f).2.length ∧
    ((minQtyCond f).1 = [] → (minQtyCond f).2 = []) := by
  rcases hc : f.min_quantity with _ | n
  · simp [minQtyCond, hc]
  · simp only [minQtyCond, hc]
    refine ⟨?_, by
        simp only [List.map_cons, List.map_nil, List.sum_cons, List.sum_nil,
          List.length_cons, List.length_nil]
        decide, by simp⟩
    intro c hcm
    simp only [List.mem_singleton] at hcm
    subst hcm
    exact ⟨by decide, by decide⟩

theorem maxQtyCond_facts (f : Filters) :
    (∀ c ∈ (maxQtyCond f).1, c.data ≠ [] ∧ c.data.head? ≠ some 's') ∧
    ((maxQtyCond f).1.map (fun c => countPS c.data)).sum = (maxQtyCond f).2.length ∧
    ((maxQtyCond f).1 = [] → (maxQtyCond f).2 = []) := by
  rcases hc : f.max_quantity with _ | n
  · simp [maxQtyCond, hc]
  · simp only [maxQtyCond, hc]
    refine ⟨?_, by
        simp only [List.map_cons, List.map_nil, List.sum_cons, List.sum_nil,
          List.length_cons, List.length_nil]
        decide, by simp⟩
    intro c hcm
    simp only [List.mem_singleton] at hcm
    subst hcm
    exact ⟨by decide, by decide⟩

theorem searchCond_facts (f : Filters) :
    (∀ c ∈ (searchCond f).1, c.data ≠ [] ∧ c.data.head? ≠ some 's') ∧
    ((searchCond f).1.map (fun c => countPS c.data)).sum = (searchCond f).2.length ∧
    ((searchCond f).1 = [] → (searchCond f).2 = []) := by
  rcases hc : f.search with _ | s
  · simp [searchCond, hc]
  · simp only [searchCond, hc]
    split_ifs
    · simp
    · refine ⟨?_, by
        simp only [List.map_cons, List.map_nil, List.sum_cons, List.sum_nil,
          List.length_cons, List.length_nil]
        decide, by simp⟩
      intro c hcm
      simp only [List.mem_singleton] at hcm
      subst hcm
      exact ⟨by decide, by decide⟩

theorem lowStockCond_facts (f : Filters) :
    (∀ c ∈ lowStockCond f, c.data ≠ [] ∧ c.data.head? ≠ some 's') ∧
    ((lowStockCond f).map (fun c => countPS c.data)).sum = 0 := by
  rcases hc : f.low_stock with _ | (_ | _)
  · simp [lowStockCond, hc]
  · simp [lowStockCond, hc]
  · simp only [lowStockCond, hc]
    refine ⟨?_, by
        simp only [List.map_cons, List.map_nil, List.sum_cons, List.sum_nil,
          List.length_cons, List.length_nil]
        decide⟩
    intro c hcm
    simp only [List.mem_singleton] at hcm
    subst hcm
    exact ⟨by decide, by decide⟩

theorem searchConditionList_facts (f : Filters) :
    ∀ c ∈ searchConditionList f, c.data ≠ [] ∧ c.data.head? ≠ some 's' := by
  intro c hc
  unfold searchConditionList at hc
  simp only [List.mem_append] at hc
  rcases hc with ((((((hc | hc) | hc) | hc) | hc) | hc) | hc)
  · exact (catCond_facts f).1 c hc
  · exact (minPriceCond_facts f).1 c hc
  · exact (maxPriceCond_facts f).1 c hc
  · exact (minQtyCond_facts f).1 c hc
  · exact (maxQtyCond_facts f).1 c hc
  · exact (searchCond_facts f).1 c hc
  · exact (lowStockCond_facts f).1 c hc

theorem searchConditionList_count (f : Filters) :
    ((searchConditionList f).map (fun c => countPS c.data)).sum =
      (searchParamList f).length := by
  unfold searchConditionList searchParamList
  simp only [List.map_append, List.sum_append, List.length_append]
  rw [(catCond_facts f).2.1, (minPriceCond_facts f).2.1, (maxPriceCond_facts f).2.1,
    (minQtyCond_facts f).2.1, (maxQtyCond_facts f).2.1, (searchCond_facts f).2.1,
    (lowStockCond_facts f).2]
  omega

theorem searchConditionList_nil (f : Filters) (h : searchConditionList f = []) :
    searchParamList f = [] := by
  unfold searchConditionList at h
  simp only [List.append_eq_nil] at h
  obtain ⟨⟨⟨⟨⟨⟨h1, h2⟩, h3⟩, h4⟩, h5⟩, h6⟩, h7⟩ := h
  unfold searchParamList
  rw [(catCond_facts f).2.2 h1, (minPriceCond_facts f).2.2 h2,
    (maxPriceCond_facts f).2.2 h3, (minQtyCond_facts f).2.2 h4,
    (maxQtyCond_facts f).2.2 h5, (searchCond_facts f).2.2 h6]
  rfl

theorem searchParamList_spec (f : Filters) :
    searchParamList f = specArgumentOrder f := by
  obtain ⟨c, mp, xp, mq, xq, se, lo⟩ := f
  rcases c with _ | c <;> rcases mp with _ | mp <;> rcases xp with _ | xp <;>
    rcases mq with _ | mq <;> rcases xq with _ | xq <;> rcases se with _ | se <;>
    first
      | rfl
      | (simp only [searchParamList, specArgumentOrder, catCond, minPriceCond,
          maxPriceCond, minQtyCond, maxQtyCond, searchCond]
         split_ifs <;> rfl)

/-- Claim C3: the query builder returns its argument list in the fixed
append order the specification states (category, price bounds min then
max, quantity bounds min then max, search contributing two placeholders
with the same wildcarded value, low-stock contributing no placeholder);
the number of `%s` placeholders it adds to the base statement equals the
length of that argument list; and with no filters present the base
statement is returned unchanged with an empty argument list. -/
theorem c3_build_search_query_order (base : String) (f : Filters) :
    (build_search_query base f).2 = specArgumentOrder f ∧
    countPlaceholders (build_search_query base f).1 =
      countPlaceholders base + ((build_search_query base f).2).length ∧
    build_search_query base {} = (base, []) := by
  refine ⟨?_, ?_, rfl⟩
  · have h2 : (build_search_query base f).2 = searchParamList f := by
      unfold build_search_query
      split_ifs <;> rfl
    rw [h2]
    exact searchParamList_spec f
  · unfold build_search_query
    by_cases he : (searchConditionList f).isEmpty
    · rw [if_pos he]
      rw [List.isEmpty_iff] at he
      rw [searchConditionList_nil f he]
      rfl
    · rw [if_neg he]
      rw [List.isEmpty_iff] at he
      obtain ⟨d, t, hdt⟩ := List.exists_cons_of_ne_nil he
      have hdf := searchConditionList_facts f d (by rw [hdt]; simp)
      have hXhead : (joinAnd (searchConditionList f)).data.head? ≠ some 's' := by
        rw [hdt, joinAnd_head d t hdf.1]
        exact hdf.2
      show countPS ((base ++ " WHERE ") ++ joinAnd (searchConditionList f)).data =
        countPS base.data + (searchParamList f).length
      rw [string_data_append, string_data_append, countPS_append _ _ hXhead,
        countPS_append _ _ (by decide : (" WHERE ".data).head? ≠ some 's'),
        countPS_joinAnd _ (searchConditionList_facts f), searchConditionList_count f]
      have hws : countPS " WHERE ".data = 0 := by decide
      simp [hws]

end Inventory
